import Mathlib

/-!
Verification of the fault-injection test server of relai-gateway
(src/test_retry_server.py) via a shallow embedding.

The handler body of RetryTestHandler.do_POST is translated action by action
into a trace of observable effects (log lines, sleeps, status/header/body
writes), and the specification claims are proved about that embedding.
The random draw of a scenario by random.choice is modelled by making the
drawn scenario an explicit argument: uniformity of the draw is a statement
about the literal list handed to random.choice (each element occurs once in
a list of length four, so random.choice returns each with probability 1/4).
-/

namespace RetryServer

/-- The four response scenarios of RetryTestHandler.do_POST, in the order in
which they appear in the list passed to random.choice. -/
inductive Scenario where
  | timeout
  | server_error
  | success
  | client_error
  deriving DecidableEq

/-- The literal four-element list that do_POST passes to random.choice. -/
def scenarios : List Scenario :=
  [Scenario.timeout, Scenario.server_error, Scenario.success, Scenario.client_error]

/-- The string form of a scenario, as interpolated into the first log line. -/
def scenarioName : Scenario → String
  | Scenario.timeout => "timeout"
  | Scenario.server_error => "server_error"
  | Scenario.success => "success"
  | Scenario.client_error => "client_error"

/-- An inbound HTTP request as BaseHTTPRequestHandler exposes it to the
handler: method (command), path, headers and body.  do_POST never reads any
of these fields, which the theorems below make explicit. -/
structure Request where
  method : String
  path : String
  headers : List (String × String)
  body : String
  deriving DecidableEq

/-- One observable effect performed by the handler, in program order:
a print to stdout, a time.sleep, or one of the response-writing primitives
send_response / send_header / end_headers / wfile.write. -/
inductive Action where
  | log (line : String)
  | sleep (seconds : Nat)
  | sendResponse (status : Nat)
  | sendHeader (name value : String)
  | endHeaders
  | writeBody (bytes : String)
  deriving DecidableEq

/-- The body of RetryTestHandler.do_POST, given the request and the scenario
returned by random.choice, as the trace of effects it performs in order.
Every string literal is byte for byte the literal of the source; the Python
else-branch of the if/elif chain is the success case. -/
def do_POST (req : Request) (scenario : Scenario) : List Action :=
  Action.log ("Test server handling request with scenario: " ++ scenarioName scenario) ::
  match scenario with
  | Scenario.timeout =>
      [Action.log "Simulating timeout (sleeping 15 seconds)...",
       Action.sleep 15,
       Action.sendResponse 200,
       Action.endHeaders,
       Action.writeBody "\x7b\"delayed\": \"response\"\x7d"]
  | Scenario.server_error =>
      [Action.log "Simulating server error (500)",
       Action.sendResponse 500,
       Action.endHeaders,
       Action.writeBody "\x7b\"error\": \"Internal server error\"\x7d"]
  | Scenario.client_error =>
      [Action.log "Simulating client error (400) - should NOT retry",
       Action.sendResponse 400,
       Action.endHeaders,
       Action.writeBody "\x7b\"error\": \"Bad request\"\x7d"]
  | Scenario.success =>
      [Action.log "Simulating success (200)",
       Action.sendResponse 200,
       Action.sendHeader "Content-Type" "application/json",
       Action.endHeaders,
       Action.writeBody "\x7b\"message\": \"Success after retries!\"\x7d"]

/-- The status codes sent by send_response calls of a trace, in order. -/
def statusCodes (t : List Action) : List Nat :=
  t.filterMap fun a =>
    match a with
    | Action.sendResponse c => some c
    | _ => none

/-- The byte strings written to wfile by a trace, in order. -/
def bodyWrites (t : List Action) : List String :=
  t.filterMap fun a =>
    match a with
    | Action.writeBody b => some b
    | _ => none

/-- The response body of a trace: the concatenation of its wfile writes. -/
def bodyText (t : List Action) : String :=
  String.join (bodyWrites t)

/-- Total seconds slept by a trace. -/
def delayTotal (t : List Action) : Nat :=
  (t.filterMap fun a =>
    match a with
    | Action.sleep n => some n
    | _ => none).sum

/-- The headers set by explicit send_header calls of a trace, in order. -/
def headerWrites (t : List Action) : List (String × String) :=
  t.filterMap fun a =>
    match a with
    | Action.sendHeader n v => some (n, v)
    | _ => none

/-- Whether an action writes part of the HTTP response (as opposed to
logging or sleeping). -/
def isWrite : Action → Bool
  | Action.log _ => false
  | Action.sleep _ => false
  | _ => true

/-- The response-writing actions of a trace, in order. -/
def writes (t : List Action) : List Action :=
  t.filter isWrite

/-- After a send_response: any number of send_header calls, then exactly one
end_headers followed by exactly one body write. -/
def wfAfterStatus : List Action → Bool
  | Action.sendHeader _ _ :: rest => wfAfterStatus rest
  | [Action.endHeaders, Action.writeBody _] => true
  | _ => false

/-- A complete well-formed HTTP response: one status line, then headers,
then end of headers, then the body. -/
def wellFormedWrites : List Action → Bool
  | Action.sendResponse _ :: rest => wfAfterStatus rest
  | _ => false

/-- Renders a flat JSON object with string values the way Python writes the
literal bodies of the source: lbrace, comma-space separated
quoted-key colon space quoted-value pairs, rbrace. -/
def renderFlat (fields : List (String × String)) : String :=
  "\x7b" ++
    String.intercalate ", "
      (fields.map fun f => "\"" ++ f.1 ++ "\": \"" ++ f.2 ++ "\"") ++
  "\x7d"

/-- The body is valid JSON containing the given key: it is the rendering of
some flat JSON object one of whose keys is the given key. -/
def jsonBodyWithKey (key body : String) : Prop :=
  ∃ fields : List (String × String),
    renderFlat fields = body ∧ key ∈ fields.map Prod.fst

/-- Number of occurrences of a scenario in the list given to random.choice;
random.choice returns an element with probability occurrences / length. -/
def drawCount (s : Scenario) : Nat :=
  scenarios.count s

/-- A whole service run: each request of the history is answered by do_POST
applied to that request and its own draw, nothing else. -/
def serve (history : List (Request × Scenario)) : List (List Action) :=
  history.map fun p => do_POST p.1 p.2

/-- A concrete POST request, e.g. the spec end-to-end probe with body
ping 1. -/
def anyReq : Request :=
  ⟨"POST", "/", [], "\x7b\"ping\":1\x7d"⟩

/-- A concrete non-POST request. -/
def reqGet : Request :=
  ⟨"GET", "/", [], ""⟩

/-- Wall-clock seconds a single handler invocation occupies the server:
the sleeps its trace performs (response writes are immediate). -/
def handleTime (s : Scenario) : Nat :=
  delayTotal (do_POST anyReq s)

/-- Service start times under the server loop of the source.  The source
runs socketserver.TCPServer (no ThreadingMixIn / ForkingMixIn), whose
serve_forever loop is synchronous: each request is handled to completion
before the next pending connection is processed.  With all connections
pending from time 0, the first request starts at 0 and every later request
starts only after the handling time of each request before it. -/
def startTimes : List Scenario → List Nat
  | [] => []
  | s :: rest => 0 :: (startTimes rest).map (fun t => t + handleTime s)

/-- Dispatch of http.server.BaseHTTPRequestHandler: a request whose method
has no matching do_METHOD attribute on the handler class is answered by
send_error 501 (status line, a Content-Type header, end of headers, and an
HTML error page naming the unsupported method); RetryTestHandler defines
only do_POST. -/
def definedHandlers : List String :=
  ["POST"]

/-- The trace of BaseHTTPRequestHandler.send_error 501 for a request. -/
def sendError501 (req : Request) : List Action :=
  [Action.sendResponse 501,
   Action.sendHeader "Content-Type" "text/html;charset=utf-8",
   Action.endHeaders,
   Action.writeBody ("Unsupported method (" ++ req.method ++ ")")]

/-- A full request through BaseHTTPRequestHandler dispatch: do_POST for
POST, send_error 501 otherwise (the scenario draw is never consulted). -/
def handleRequest (req : Request) (s : Scenario) : List Action :=
  if req.method ∈ definedHandlers then do_POST req s
  else sendError501 req

/-- C1: for every POST request and every scenario the random draw can
select, do_POST sends exactly one status code, and it is 200, 400 or 500;
no other status code is ever produced. -/
theorem C1_status_codes (req : Request) (s : Scenario) :
    statusCodes (do_POST req s) = [200] ∨ statusCodes (do_POST req s) = [400] ∨
      statusCodes (do_POST req s) = [500] := by
  cases s
  case timeout => exact Or.inl rfl
  case server_error => exact Or.inr (Or.inr rfl)
  case client_error => exact Or.inr (Or.inl rfl)
  case success => exact Or.inl rfl

/-- C2: the list handed to random.choice has length four, no duplicates,
and contains every scenario exactly once, so each scenario is drawn with
probability 1/4; and the responder keeps no memory across requests: in any
service history the answer to a request is do_POST of that request and its
own draw, whatever requests precede or follow it. -/
theorem C2_uniform_and_memoryless :
    scenarios.length = 4 ∧ scenarios.Nodup ∧
      (∀ s : Scenario, s ∈ scenarios ∧ drawCount s = 1) ∧
      ∀ (before after : List (Request × Scenario)) (p : Request × Scenario),
        serve (before ++ p :: after) = serve before ++ do_POST p.1 p.2 :: serve after := by
  refine ⟨rfl, by decide, fun s => ⟨by cases s <;> decide, by cases s <;> decide⟩, ?_⟩
  intro before after p
  simp [serve]

/-- C3: for every request and draw, when the status is 400 or 500 the body
is valid JSON with an error key; when the status is 200 and no delay was
applied the body is valid JSON with a message key; when the status is 200
and a delay was applied the body has a delayed key. -/
theorem C3_body_keys (req : Request) (s : Scenario) :
    (∀ c ∈ statusCodes (do_POST req s), (c = 400 ∨ c = 500) →
      jsonBodyWithKey "error" (bodyText (do_POST req s))) ∧
    (200 ∈ statusCodes (do_POST req s) → delayTotal (do_POST req s) = 0 →
      jsonBodyWithKey "message" (bodyText (do_POST req s))) ∧
    (200 ∈ statusCodes (do_POST req s) → 0 < delayTotal (do_POST req s) →
      jsonBodyWithKey "delayed" (bodyText (do_POST req s))) := by
  cases s
  case timeout =>
    refine ⟨?_, ?_, ?_⟩
    · intro c hc hcase
      simp [do_POST, statusCodes] at hc
      subst hc
      rcases hcase with h | h <;> exact absurd h (by decide)
    · intro _ hdelay
      simp [do_POST, delayTotal] at hdelay
    · intro _ _
      exact ⟨[("delayed", "response")], rfl, by decide⟩
  case server_error =>
    refine ⟨?_, ?_, ?_⟩
    · intro _ _ _
      exact ⟨[("error", "Internal server error")], rfl, by decide⟩
    · intro h
      simp [do_POST, statusCodes] at h
    · intro h
      simp [do_POST, statusCodes] at h
  case client_error =>
    refine ⟨?_, ?_, ?_⟩
    · intro _ _ _
      exact ⟨[("error", "Bad request")], rfl, by decide⟩
    · intro h
      simp [do_POST, statusCodes] at h
    · intro h
      simp [do_POST, statusCodes] at h
  case success =>
    refine ⟨?_, ?_, ?_⟩
    · intro c hc hcase
      simp [do_POST, statusCodes] at hc
      subst hc
      rcases hcase with h | h <;> exact absurd h (by decide)
    · intro _ _
      exact ⟨[("message", "Success after retries!")], rfl, by decide⟩
    · intro _ hdelay
      simp [do_POST, delayTotal] at hdelay

/-- C3 witness: at the concrete probe request with the server_error draw,
the 500 status is sent and the body is valid JSON with an error key. -/
theorem C3_body_keys_witness :
    jsonBodyWithKey "error" (bodyText (do_POST anyReq Scenario.server_error)) :=
  (C3_body_keys anyReq Scenario.server_error).1 500 (by decide) (Or.inr rfl)

/-- C4: whenever a trace of do_POST sends status 500, its body is exactly
the byte string of the internal-server-error JSON literal. -/
theorem C4_error_body_exact (req : Request) (s : Scenario)
    (h : 500 ∈ statusCodes (do_POST req s)) :
    bodyText (do_POST req s) = "\x7b\"error\": \"Internal server error\"\x7d" := by
  cases s
  case server_error => rfl
  case timeout => simp [do_POST, statusCodes] at h
  case client_error => simp [do_POST, statusCodes] at h
  case success => simp [do_POST, statusCodes] at h

/-- C4 witness: the concrete probe request under the server_error draw. -/
theorem C4_error_body_exact_witness :
    bodyText (do_POST anyReq Scenario.server_error) =
      "\x7b\"error\": \"Internal server error\"\x7d" :=
  C4_error_body_exact anyReq Scenario.server_error (by decide)

/-- C5: under the timeout draw the trace sleeps exactly 15 seconds, the
sleep precedes every response-writing action, and the response then sent is
a 200 whose body is the delayed JSON literal — so a client whose timeout is
below 15 seconds gives up before any byte of the response exists. -/
theorem C5_delay_precedes_response (req : Request) :
    ∃ pre post,
      do_POST req Scenario.timeout = pre ++ Action.sleep 15 :: post ∧
      pre.all (fun a => !isWrite a) = true ∧
      statusCodes (do_POST req Scenario.timeout) = [200] ∧
      bodyText (do_POST req Scenario.timeout) = "\x7b\"delayed\": \"response\"\x7d" := by
  refine ⟨[Action.log "Test server handling request with scenario: timeout",
           Action.log "Simulating timeout (sleeping 15 seconds)..."],
          [Action.sendResponse 200, Action.endHeaders,
           Action.writeBody "\x7b\"delayed\": \"response\"\x7d"],
          ?_, ?_, ?_, ?_⟩ <;> rfl

/-- C6 counterexample: the claim that request handling does not serialize
on the sleeping handler is false.  Under the synchronous TCPServer loop of
the source, with a timeout request and a success request both pending from
time 0, service would start at 0 and 0 if handling were concurrent, but the
start times are 0 and 15: the second connection is served only after the
first handler finishes its 15-second sleep. -/
theorem C6_counterexample :
    ¬ ∀ l : List Scenario, startTimes l = List.replicate l.length 0 := by
  intro h
  exact absurd (h [Scenario.timeout, Scenario.success]) (by decide)

/-- C6 amended: request handling is serialized.  Every request queued
behind a first request starts no earlier than the first request's full
handling time — in particular, behind a timeout draw, no earlier than 15
seconds. -/
theorem C6_serialized (s : Scenario) (l : List Scenario) (t : Nat)
    (ht : t ∈ (startTimes (s :: l)).tail) : handleTime s ≤ t := by
  simp [startTimes] at ht
  rcases ht with ⟨x, _, rfl⟩
  omega

/-- C6 witness: a success request queued behind a timeout request starts at
time 15, no earlier than the timeout handling time. -/
theorem C6_serialized_witness : handleTime Scenario.timeout ≤ 15 :=
  C6_serialized Scenario.timeout [Scenario.success] 15 (by decide)

/-- C7: the trace, hence status, headers and body, is a function of the
drawn scenario alone: two requests differing in method, path, headers or
body but with the same draw get identical responses. -/
theorem C7_request_independent (r1 r2 : Request) (s : Scenario) :
    do_POST r1 s = do_POST r2 s := rfl

/-- C8: every branch of do_POST terminates having written a complete
well-formed response: one status line, then headers, then end of headers,
then the body, with nothing missing and nothing repeated. -/
theorem C8_wellformed_response (req : Request) (s : Scenario) :
    wellFormedWrites (writes (do_POST req s)) = true := by
  cases s <;> rfl

/-- C9: the success draw sets exactly the Content-Type application/json
header, and no other draw performs any send_header call. -/
theorem C9_content_type (req : Request) :
    headerWrites (do_POST req Scenario.success) = [("Content-Type", "application/json")] ∧
      ∀ s : Scenario, s ≠ Scenario.success → headerWrites (do_POST req s) = [] := by
  refine ⟨rfl, ?_⟩
  intro s hs
  cases s
  case success => exact absurd rfl hs
  all_goals rfl

/-- C9 witness: the timeout draw at the concrete probe request sets no
header. -/
theorem C9_content_type_witness :
    headerWrites (do_POST anyReq Scenario.timeout) = [] :=
  (C9_content_type anyReq).2 Scenario.timeout (by decide)

/-- C10: a request whose method is not POST never reaches the scenario
logic: dispatch answers it with a single 501 status, and the response does
not depend on the scenario draw at all. -/
theorem C10_non_post_501 (req : Request) (s : Scenario) (h : req.method ≠ "POST") :
    statusCodes (handleRequest req s) = [501] ∧
      ∀ s2 : Scenario, handleRequest req s = handleRequest req s2 := by
  have hm : req.method ∉ definedHandlers := by
    simp [definedHandlers]
    exact h
  constructor
  · simp [handleRequest, hm, statusCodes, sendError501]
  · intro s2
    simp [handleRequest, hm]

/-- C10 witness: a concrete GET request is answered 501. -/
theorem C10_non_post_501_witness :
    statusCodes (handleRequest reqGet Scenario.success) = [501] :=
  (C10_non_post_501 reqGet Scenario.success (by decide)).1

end RetryServer
